import Mathlib

/-
Verification development for the motion-planning drone controller
(src/p2-control/motion_planning.py).

The flight state machine and the plan_path driver are embedded directly
from motion_planning.py.  The planning subroutines imported there from
planning_utils.py and grid.py (create_grid, medial_axis wrapper,
find_start_goal, a_star, collinearity, heading) are not part of src/, so
they are modelled from the specification (spec.md sections 4.1-4.5); each
such definition carries a doc comment saying so.

Numeric conventions: telemetry and thresholds are rationals.  The absent
Python code works on IEEE doubles; square roots (the diagonal step cost
and the Euclidean heuristic of the A* search) are represented by rational
approximations to 10^-6, exact on perfect squares.  Comparisons of the
form "Euclidean norm < r" are embedded as "squared norm < r^2", which is
equivalent for r >= 0.
-/

namespace MP

attribute [local semireducible] Rat.ofScientific Rat.mul Rat.inv Rat.add Rat.sub

set_option maxRecDepth 10000000

set_option maxHeartbeats 4000000

/-- The seven mission states of the flight state machine
(class States in motion_planning.py). -/
inductive States where
  | MANUAL
  | ARMING
  | TAKEOFF
  | WAYPOINT
  | LANDING
  | DISARMING
  | PLANNING
deriving DecidableEq, Repr

/-- A grid cell: (row, col) integer pair, used as A* node identity. -/
abbrev Cell := ℤ × ℤ

/-- A heading is the angle atan2(Δeast, Δnorth) of a path segment; we
represent it by the argument pair (Δeast, Δnorth) whose atan2 it is, so
the zero heading is (0, 1). -/
abbrev Heading := ℚ × ℚ

/-- A 3-component telemetry vector, indexed x0/x1/x2 after the Python
subscripts [0]/[1]/[2]. -/
structure Vec3 where
  x0 : ℚ
  x1 : ℚ
  x2 : ℚ
deriving DecidableEq, Repr

/-- The target_position attribute: it starts as a 3-array and receives a
4-component waypoint (north, east, altitude, heading) in
waypoint_transition; x3 is the heading slot. -/
structure TargetPos where
  x0 : ℚ
  x1 : ℚ
  x2 : ℚ
  x3 : Heading
deriving DecidableEq, Repr

/-- A waypoint handed to the simulator: (north, east, altitude, heading),
the first three integers as built in plan_path lines 192-197. -/
structure Waypoint where
  n : ℤ
  e : ℤ
  alt : ℤ
  hdg : Heading
deriving DecidableEq, Repr

/-- Commands issued to the external flight-controller client, recorded in
the order the source calls them. -/
inductive Cmd where
  | arm
  | takeControl
  | takeoff (alt : ℚ)
  | cmdPosition (n e alt : ℚ) (hdg : Heading)
  | land
  | disarm
  | releaseControl
  | stop
  | setHome (lon lat alt : ℚ)
  | sendWaypoints (wps : List Waypoint)
deriving DecidableEq, Repr

/-- Exceptions the embedded code can raise: IndexError from list.pop(0)
on an empty list, and the planning-pipeline errors of spec.md section 7.
noRandomGoal models exhaustion of the supplied random draws (the source
would loop forever if no free cell were ever drawn). -/
inductive Err where
  | indexError
  | noRandomGoal
  | noSkeletonReachable
  | noPathFound
deriving DecidableEq, Repr

/-- One obstacle record of colliders.csv:
(north, east, alt, half_north, half_east, half_alt). -/
structure Obstacle where
  n : ℚ
  e : ℚ
  alt : ℚ
  dn : ℚ
  de : ℚ
  dalt : ℚ
deriving DecidableEq, Repr

/-- The mutable attributes of the MotionPlanning drone object together
with the read-only telemetry fields it consults. -/
structure DroneState where
  flight_state : States
  in_mission : Bool
  armed : Bool
  guided : Bool
  local_position : Vec3
  local_velocity : Vec3
  global_position : Vec3
  global_home : Vec3
  target_position : TargetPos
  waypoints : List Waypoint
  cmds : List Cmd
deriving DecidableEq, Repr

/-- Inputs of one plan_path run that come from outside the drone object:
the obstacle file contents (header lat0/lon0 plus obstacle rows) and the
stream of random draws consumed by the goal-selection loop (each draw a
pair of naturals, reduced mod the grid dimensions like randrange). -/
structure PlanEnv where
  lat0 : ℚ
  lon0 : ℚ
  data : List Obstacle
  rs : List (ℕ × ℕ)
deriving DecidableEq, Repr

/-- Python bool-to-int coercion (False = 0, True = 1). -/
def pyBool (b : Bool) : ℤ := if b then 1 else 0

/-- Python bitwise complement on int: ~x = -x - 1. -/
def pyTilde (x : ℤ) : ℤ := -x - 1

/-- The DISARMING guard of state_callback line 78, exactly as written in
the source: `~self.armed & ~self.guided`, Python bitwise operators on the
bool-as-int values, a nonzero result being truthy. -/
def disarmGuard (armed guided : Bool) : Bool :=
  decide (Int.land (pyTilde (pyBool armed)) (pyTilde (pyBool guided)) ≠ 0)

/-- Python int() truncation toward zero of an exact rational. -/
def pyInt (q : ℚ) : ℤ := q.num.tdiv (q.den : ℤ)

/-- The fixed planning altitude of plan_path (TARGET_ALTITUDE = 5). -/
def TARGET_ALTITUDE : ℤ := 5

/-- The fixed safety margin of plan_path (SAFETY_DISTANCE = 5). -/
def SAFETY_DISTANCE : ℚ := 5

/-- Modelled from the spec (section 4.1, grid.py's create_grid is absent
from src/): the occupancy grid of optimized queries: its bounding box,
integer offsets, and the obstacle list it rasterizes. -/
structure Grid where
  rows : ℕ
  cols : ℕ
  nOff : ℤ
  eOff : ℤ
  data : List Obstacle
  alt : ℚ
  safety : ℚ
deriving DecidableEq, Repr

/-- Modelled from the spec (section 4.1): a cell is occupied iff some
obstacle whose vertical extent reaches the planning altitude covers the
corresponding (north, east) point once inflated by the safety distance. -/
def Grid.occ (g : Grid) (c : Cell) : Bool :=
  g.data.any fun o =>
    decide (g.alt ≤ o.alt + o.dalt) &&
    decide (|(g.nOff + c.1 : ℚ) - o.n| ≤ o.dn + g.safety) &&
    decide (|(g.eOff + c.2 : ℚ) - o.e| ≤ o.de + g.safety)

/-- Cell lies inside the allocated grid. -/
def Grid.inB (g : Grid) (c : Cell) : Bool :=
  decide (0 ≤ c.1) && decide (c.1 < (g.rows : ℤ)) &&
  decide (0 ≤ c.2) && decide (c.2 < (g.cols : ℤ))

/-- Free space: in bounds and not occupied. -/
def Grid.free (g : Grid) (c : Cell) : Bool := g.inB c && !(g.occ c)

/-- Modelled from the spec (section 4.1, grid.py absent from src/):
compute the bounding box of all obstacles inflated by the safety
distance, allocate a grid at 1-unit resolution covering it, and return
it with the integer offsets of its origin.  An empty obstacle list
yields an all-free grid of minimal size. -/
def create_grid (data : List Obstacle) (alt safety : ℚ) : Grid :=
  match data with
  | [] => ⟨1, 1, 0, 0, [], alt, safety⟩
  | o :: rest =>
    let nmin := Rat.floor ((o :: rest).foldl (fun m p => min m (p.n - p.dn - safety))
      (o.n - o.dn - safety))
    let nmax := Rat.ceil ((o :: rest).foldl (fun m p => max m (p.n + p.dn + safety))
      (o.n + o.dn + safety))
    let emin := Rat.floor ((o :: rest).foldl (fun m p => min m (p.e - p.de - safety))
      (o.e - o.de - safety))
    let emax := Rat.ceil ((o :: rest).foldl (fun m p => max m (p.e + p.de + safety))
      (o.e + o.de + safety))
    ⟨(nmax - nmin + 1).toNat, (emax - emin + 1).toNat, nmin, emin, data, alt, safety⟩

/-- Componentwise cell addition. -/
def cadd (a b : Cell) : Cell := (a.1 + b.1, a.2 + b.2)

/-- Componentwise cell subtraction. -/
def csub (a b : Cell) : Cell := (a.1 - b.1, a.2 - b.2)

/-- Squared Euclidean distance between two cells, as a natural. -/
def sqDist (a b : Cell) : ℕ := (a.1 - b.1).natAbs ^ 2 + (a.2 - b.2).natAbs ^ 2

/-- Row-major list of all cells of the grid. -/
def allCells (g : Grid) : List Cell :=
  (List.range g.rows).flatMap fun i =>
    (List.range g.cols).map fun j => ((i : ℤ), (j : ℤ))

/-- Modelled from the spec (section 3, Skeleton Grid; skimage's distance
transform stands behind medial_axis): the squared clearance of a cell,
i.e. the squared Euclidean distance to the nearest occupied cell of the
grid (0 on occupied cells; a value larger than any in-grid distance when
no cell is occupied). -/
def clearScan (g : Grid) (c : Cell) : ℕ :=
  if g.occ c then 0
  else (allCells g).foldl
    (fun m d => if g.occ d then min m (sqDist c d) else m)
    (g.rows * g.rows + g.cols * g.cols + 1)

/-- The clearance table, precomputed row-major exactly once per planning
run, mirroring the distance-transform array of the medial-axis routine. -/
def clearGrid (g : Grid) : List (List ℕ) :=
  (List.range g.rows).map fun i =>
    (List.range g.cols).map fun j => clearScan g ((i : ℤ), (j : ℤ))

/-- Clearance lookup; cells outside the grid count as clearance 0. -/
def clearAt (cg : List (List ℕ)) (c : Cell) : ℕ :=
  if 0 ≤ c.1 ∧ 0 ≤ c.2 then ((cg.getD c.1.toNat []).getD c.2.toNat 0) else 0

/-- The four undirected grid directions (axis and diagonal). -/
def dirs4 : List Cell := [(1, 0), (0, 1), (1, 1), (1, -1)]

/-- Modelled from the spec (sections 3 and 4.2, skimage.medial_axis is an
external thinning algorithm): a skeleton cell is a free cell whose
clearance is locally maximal along at least one of the four grid
directions. -/
def skelAt (cg : List (List ℕ)) (g : Grid) (c : Cell) : Bool :=
  g.free c && dirs4.any fun d =>
    clearAt cg (cadd c d) ≤ clearAt cg c && clearAt cg (csub c d) ≤ clearAt cg c

/-- Modelled from the spec (section 4.2): the skeleton, as the row-major
list of its cells, computed once per planning run (the source stores it
as an array at motion_planning.py line 158). -/
def medial_axis (g : Grid) : List Cell :=
  let cg := clearGrid g
  (allCells g).filter (skelAt cg g)

/-- Lexicographic comparison of (squared distance, row, col) keys used to
pick the nearest skeleton cell, ties broken by row-major order. -/
def keyLt (a b : ℕ × Cell) : Bool :=
  a.1 < b.1 || (a.1 = b.1 && (a.2.1 < b.2.1 || (a.2.1 = b.2.1 && a.2.2 < b.2.2)))

/-- Nearest cell of the list to the target, by Euclidean distance with
ties broken by row-major order (the list is scanned in row-major order
and only a strictly smaller key replaces the current best). -/
def nearestCell (target : Cell) : List Cell → Option Cell
  | [] => none
  | c :: rest =>
    some ((rest.foldl
      (fun best d => if keyLt (sqDist d target, d) (sqDist best target, best) then d else best)
      c))

/-- Modelled from the spec (section 4.2, planning_utils.py's
find_start_goal is absent from src/): snap the start and goal cells to
the nearest skeleton cell each, failing with NoSkeletonReachable when no
skeleton cell lies within the bounded search radius (rows + cols, which
covers the whole grid). -/
def find_start_goal (g : Grid) (skeleton : List Cell) (start goal : Cell) :
    Except Err (Cell × Cell) :=
  match nearestCell start skeleton, nearestCell goal skeleton with
  | some s, some t =>
    if sqDist s start ≤ (g.rows + g.cols) ^ 2 ∧ sqDist t goal ≤ (g.rows + g.cols) ^ 2 then
      .ok (s, t)
    else .error .noSkeletonReachable
  | _, _ => .error .noSkeletonReachable

/-- Integer square root (largest k with k * k ≤ n) by bisection; the
fuel of 64 halvings covers every argument below 2^63.  The invariant is
lo * lo ≤ n < hi * hi. -/
def isqrtGo (n : ℕ) : ℕ → ℕ → ℕ → ℕ
  | 0, lo, _ => lo
  | fuel + 1, lo, hi =>
    let mid := (lo + hi) / 2
    if mid = lo then lo
    else if mid * mid ≤ n then isqrtGo n fuel mid hi
    else isqrtGo n fuel lo mid

/-- Integer square root, rounded down. -/
def isqrt (n : ℕ) : ℕ := isqrtGo n 64 0 (n + 1)

/-- Rational square-root approximation to 10^-6, exact on perfect
squares; stands in for the IEEE-double square roots of the absent Python
code. -/
def ratSqrt (n : ℕ) : ℚ := (isqrt (n * 10 ^ 12) : ℚ) / 10 ^ 6

/-- The diagonal step cost sqrt(2) of the A* search. -/
def SQRT2 : ℚ := ratSqrt 2

/-- The eight A* moves: unit Chebyshev neighbours, axis moves of cost 1
and diagonal moves of cost sqrt(2). -/
def moves : List (Cell × ℚ) :=
  [((-1, 0), 1), ((1, 0), 1), ((0, -1), 1), ((0, 1), 1),
   ((-1, -1), SQRT2), ((-1, 1), SQRT2), ((1, -1), SQRT2), ((1, 1), SQRT2)]

/-- A frontier entry: (estimated total cost f, discovery sequence number,
cell).  The sequence number realizes the FIFO tie-break of the spec. -/
abbrev Entry := ℚ × ℕ × Cell

/-- Strictly better frontier entry: smaller f, or equal f and earlier
discovery. -/
def entryLt (a b : Entry) : Bool :=
  a.1 < b.1 || (a.1 = b.1 && a.2.1 < b.2.1)

/-- The minimal frontier entry (sequence numbers are unique, so the
minimum is unique). -/
def findMin (e : Entry) (rest : List Entry) : Entry :=
  rest.foldl (fun best x => if entryLt x best then x else best) e

/-- Remove the first occurrence of an entry from the frontier. -/
def removeEntry (e : Entry) : List Entry → List Entry
  | [] => []
  | x :: rest => if x = e then rest else x :: removeEntry e rest

/-- Association-list lookup by cell. -/
def lookupCell (l : List (Cell × ℚ)) (c : Cell) : Option ℚ :=
  (l.find? fun p => decide (p.1 = c)).map (·.2)

/-- Association-list lookup of a cell's parent. -/
def lookupParent (l : List (Cell × Cell)) (c : Cell) : Option Cell :=
  (l.find? fun p => decide (p.1 = c)).map (·.2)

/-- Walk the came-from links back from the goal, producing the
start-to-goal path. -/
def rebuild (cm : List (Cell × Cell)) : ℕ → Cell → List Cell → List Cell
  | 0, c, acc => c :: acc
  | fuel + 1, c, acc =>
    match lookupParent cm c with
    | none => c :: acc
    | some p => rebuild cm fuel p (c :: acc)

/-- Expand one node: push every in-bounds traversable non-closed
neighbour whose tentative cost improves on its best recorded cost. -/
def expand (g : Grid) (trav : Cell → Bool) (goal : Cell) (c : Cell) (gc : ℚ)
    (closed : List Cell) :
    List Entry × List (Cell × ℚ) × List (Cell × Cell) × ℕ →
    List (Cell × ℚ) → List Entry × List (Cell × ℚ) × List (Cell × Cell) × ℕ
  | st, [] => st
  | (fr, gm, cm, seq), (d, cost) :: ms =>
    let n := cadd c d
    if g.inB n && trav n && !(closed.contains n) then
      let tg := gc + cost
      match lookupCell gm n with
      | some old =>
        if tg < old then
          expand g trav goal c gc closed
            ((ratSqrt (sqDist n goal) + tg, seq, n) :: fr, (n, tg) :: gm, (n, c) :: cm, seq + 1) ms
        else expand g trav goal c gc closed (fr, gm, cm, seq) ms
      | none =>
        expand g trav goal c gc closed
          ((ratSqrt (sqDist n goal) + tg, seq, n) :: fr, (n, tg) :: gm, (n, c) :: cm, seq + 1) ms
    else expand g trav goal c gc closed (fr, gm, cm, seq) ms

/-- The A* main loop: pop the lowest-(f, seq) frontier entry, skip it if
already closed, stop on first expansion of the goal, otherwise expand its
neighbours.  Fuel bounds the number of pops; an exhausted frontier means
the goal is unreachable. -/
def astarLoop (g : Grid) (trav : Cell → Bool) (goal : Cell) :
    ℕ → List Entry → List (Cell × ℚ) → List (Cell × Cell) → List Cell → ℕ →
    Except Err (List Cell × ℚ)
  | 0, _, _, _, _, _ => .error .noPathFound
  | _ + 1, [], _, _, _, _ => .error .noPathFound
  | fuel + 1, e :: fr, gm, cm, closed, seq =>
    let m := findMin e (e :: fr).tail
    let fr' := removeEntry m (e :: fr)
    let c := m.2.2
    if closed.contains c then astarLoop g trav goal fuel fr' gm cm closed seq
    else if c = goal then
      .ok (rebuild cm cm.length c [], (lookupCell gm c).getD 0)
    else
      match expand g trav goal c ((lookupCell gm c).getD 0) (c :: closed)
        (fr', gm, cm, seq) moves with
      | (fr2, gm2, cm2, seq2) => astarLoop g trav goal fuel fr2 gm2 cm2 (c :: closed) seq2

/-- Modelled from the spec (section 4.3, planning_utils.py's a_star is
absent from src/): best-first search over the traversable cells with
8-connected moves, Euclidean heuristic, FIFO tie-break and a closed set;
returns the start-to-goal path and its cost, or NoPathFound. -/
def a_star (g : Grid) (trav : Cell → Bool) (start goal : Cell) :
    Except Err (List Cell × ℚ) :=
  astarLoop g trav goal (g.rows * g.cols * 9 + 1)
    [(ratSqrt (sqDist start goal), 0, start)] [(start, 0)] [] [] 1

/-- The homogeneous 3x3 determinant (twice the signed triangle area) of
three cells, the collinearity test value of spec section 4.4. -/
def det3 (a b c : Cell) : ℤ :=
  a.1 * (b.2 - c.2) + b.1 * (c.2 - a.2) + c.1 * (a.2 - b.2)

/-- Modelled from the spec (section 4.4): three consecutive points are
collinear iff the homogeneous determinant is within a small epsilon of
zero (on integer grid cells this collapses to exact vanishing). -/
def collinearTest (a b c : Cell) : Bool :=
  decide (|(det3 a b c : ℚ)| < 1 / 1000000)

/-- Interior scan of the simplifier: prev is always the point's original
predecessor, so every interior point is judged by the direction of
travel into and out of it on the original path. -/
def go (prev : Cell) : List Cell → List Cell
  | b :: c :: rest =>
    if collinearTest prev b c then go b (c :: rest) else b :: go b (c :: rest)
  | l => l

/-- Modelled from the spec (section 4.4, planning_utils.py's collinearity
is absent from src/): the path simplifier retaining start, goal and only
those interior points where the direction of travel changes. -/
def collinearity : List Cell → List Cell
  | [] => []
  | a :: rest => a :: go a rest

/-- Modelled from the spec (section 4.5, planning_utils.py's heading is
absent from src/): one heading per waypoint, the atan2(Δeast, Δnorth) of
the segment arriving at it (represented by its argument pair); the first
waypoint's heading is the zero angle (0, 1). -/
def heading : List Cell → List Heading
  | [] => []
  | a :: rest =>
    ((0 : ℚ), (1 : ℚ)) ::
      List.zipWith (fun p q => ((q.2 - p.2 : ℚ), (q.1 - p.1 : ℚ))) (a :: rest) rest

/-- The waypoint construction of plan_path lines 191-197: each simplified
path cell plus the grid offsets, at TARGET_ALTITUDE, with the computed
heading appended. -/
def mkWaypoints (path : List Cell) (nOff eOff : ℤ) : List Waypoint :=
  List.zipWith (fun (p : Cell) (h : Heading) => ⟨p.1 + nOff, p.2 + eOff, TARGET_ALTITUDE, h⟩)
    path (heading path)

/-- The random goal-selection loop of plan_path lines 168-172: draw
(randrange rows, randrange cols) pairs until one hits a free cell.  The
draws are supplied as a stream and reduced mod the grid dimensions; an
exhausted stream is the noRandomGoal error (the source would keep
drawing forever). -/
def findGoal (g : Grid) : List (ℕ × ℕ) → Option Cell
  | [] => none
  | (i, j) :: rest =>
    let c : Cell := ((i % g.rows : ℕ), (j % g.cols : ℕ))
    if g.occ c then findGoal g rest else some c

/-- The pure planning pipeline of plan_path lines 152-197: rasterize the
obstacles, extract the skeleton, select the goal, snap start and goal to
the skeleton, search, simplify, and build the waypoint list. -/
def planPipeline (g : Grid) (goal? : Option Cell) (lp : Vec3) :
    Except Err (List Waypoint) :=
  let skeleton := medial_axis g
  let start : Cell := (pyInt (lp.x0 - (g.nOff : ℚ)), pyInt (lp.x1 - (g.eOff : ℚ)))
  match goal? with
  | none => .error .noRandomGoal
  | some goal =>
    match find_start_goal g skeleton start goal with
    | .error e => .error e
    | .ok (ss, sg) =>
      match a_star g (fun c => skeleton.contains c) ss sg with
      | .error e => .error e
      | .ok (rawPath, _cost) =>
        let path := collinearity rawPath
        .ok (mkWaypoints path g.nOff g.eOff)

/-- plan_path (motion_planning.py lines 121-203): enter PLANNING, set the
target altitude, set the home position from the file header, run the
pipeline and store/send the waypoints.  There is no exception handler in
the source, so a pipeline error escapes with the state left as already
mutated (second component of the result). -/
def plan_path (env : PlanEnv) (s : DroneState) : DroneState × Option Err :=
  let s1 := { s with flight_state := States.PLANNING,
                     target_position := { s.target_position with x2 := (TARGET_ALTITUDE : ℚ) } }
  let s2 := { s1 with global_home := ⟨env.lon0, env.lat0, 0⟩,
                      cmds := s1.cmds ++ [Cmd.setHome env.lon0 env.lat0 0] }
  let g := create_grid env.data (TARGET_ALTITUDE : ℚ) SAFETY_DISTANCE
  match planPipeline g (findGoal g env.rs) s.local_position with
  | .error e => (s2, some e)
  | .ok wps =>
    ({ s2 with waypoints := wps, cmds := s2.cmds ++ [Cmd.sendWaypoints wps] }, none)

/-- arming_transition (lines 81-85). -/
def arming_transition (s : DroneState) : DroneState :=
  { s with flight_state := States.ARMING, cmds := s.cmds ++ [Cmd.arm, Cmd.takeControl] }

/-- takeoff_transition (lines 87-90). -/
def takeoff_transition (s : DroneState) : DroneState :=
  { s with flight_state := States.TAKEOFF,
           cmds := s.cmds ++ [Cmd.takeoff s.target_position.x2] }

/-- The target_position value a popped waypoint becomes. -/
def wpTarget (w : Waypoint) : TargetPos := ⟨(w.n : ℚ), (w.e : ℚ), (w.alt : ℚ), w.hdg⟩

/-- waypoint_transition (lines 92-97): set the state to WAYPOINT, pop the
front waypoint into target_position and command it.  The pop is
unconditional: on an empty list it raises IndexError, after the state was
already set to WAYPOINT. -/
def waypoint_transition (s : DroneState) : DroneState × Option Err :=
  match s.waypoints with
  | [] => ({ s with flight_state := States.WAYPOINT }, some Err.indexError)
  | w :: rest =>
    ({ s with flight_state := States.WAYPOINT,
              target_position := wpTarget w,
              waypoints := rest,
              cmds := s.cmds ++ [Cmd.cmdPosition (w.n : ℚ) (w.e : ℚ) (w.alt : ℚ) w.hdg] },
     none)

/-- landing_transition (lines 99-102). -/
def landing_transition (s : DroneState) : DroneState :=
  { s with flight_state := States.LANDING, cmds := s.cmds ++ [Cmd.land] }

/-- disarming_transition (lines 104-108). -/
def disarming_transition (s : DroneState) : DroneState :=
  { s with flight_state := States.DISARMING,
           cmds := s.cmds ++ [Cmd.disarm, Cmd.releaseControl] }

/-- manual_transition (lines 110-114): back to MANUAL, stop, and clear
in_mission. -/
def manual_transition (s : DroneState) : DroneState :=
  { s with flight_state := States.MANUAL, cmds := s.cmds ++ [Cmd.stop],
           in_mission := false }

/-- The TAKEOFF guard of line 52: -1.0 * local_position[2] strictly
greater than 0.95 * target_position[2]. -/
def takeoffReached (s : DroneState) : Bool :=
  decide ((-1 : ℚ) * s.local_position.x2 > (95 / 100 : ℚ) * s.target_position.x2)

/-- The WAYPOINT proximity guard of line 55: horizontal Euclidean
distance to the target below 5 (embedded as squared norm below 25). -/
def nearTarget (s : DroneState) : Bool :=
  decide ((s.target_position.x0 - s.local_position.x0) ^ 2 +
    (s.target_position.x1 - s.local_position.x1) ^ 2 < 25)

/-- The landing guard of line 59: horizontal speed below 1 (embedded as
squared norm below 1). -/
def slowHoriz (s : DroneState) : Bool :=
  decide (s.local_velocity.x0 ^ 2 + s.local_velocity.x1 ^ 2 < 1)

/-- local_position_callback (lines 50-60). -/
def local_position_callback (s : DroneState) : DroneState × Option Err :=
  match s.flight_state with
  | States.TAKEOFF =>
    if takeoffReached s then waypoint_transition s else (s, none)
  | States.WAYPOINT =>
    if nearTarget s then
      if s.waypoints.length > 0 then waypoint_transition s
      else if slowHoriz s then (landing_transition s, none)
      else (s, none)
    else (s, none)
  | _ => (s, none)

/-- velocity_callback (lines 62-66): in LANDING, transition to DISARMING
when global altitude minus home altitude is below 0.1 and the absolute
local altitude is below 0.01. -/
def velocity_callback (s : DroneState) : DroneState × Option Err :=
  match s.flight_state with
  | States.LANDING =>
    if decide (s.global_position.x2 - s.global_home.x2 < 1 / 10) then
      if decide (|s.local_position.x2| < 1 / 100) then (disarming_transition s, none)
      else (s, none)
    else (s, none)
  | _ => (s, none)

/-- state_callback (lines 68-79). -/
def state_callback (env : PlanEnv) (s : DroneState) : DroneState × Option Err :=
  if s.in_mission then
    match s.flight_state with
    | States.MANUAL => (arming_transition s, none)
    | States.ARMING => if s.armed then plan_path env s else (s, none)
    | States.PLANNING => (takeoff_transition s, none)
    | States.DISARMING =>
      if disarmGuard s.armed s.guided then (manual_transition s, none) else (s, none)
    | _ => (s, none)
  else (s, none)

/-- The three telemetry event kinds whose callbacks are registered in
the constructor. -/
inductive Ev where
  | pos
  | vel
  | stat
deriving DecidableEq, Repr

/-- Dispatch one telemetry event to its callback (the state after a
raised exception is the mutated state, as in the Python dispatcher). -/
def step (env : PlanEnv) (s : DroneState) : Ev → DroneState
  | Ev.pos => (local_position_callback s).1
  | Ev.vel => (velocity_callback s).1
  | Ev.stat => (state_callback env s).1

/-- Run a sequence of telemetry events through the state machine. -/
def runEvents (env : PlanEnv) (evs : List Ev) (s : DroneState) : DroneState :=
  evs.foldl (step env) s

/-- The no-collinear-triple property of a list relative to the previous
kept point: what a second simplifier pass tests. -/
def noColAt (prev : Cell) : List Cell → Prop
  | b :: c :: rest => det3 prev b c ≠ 0 ∧ noColAt b (c :: rest)
  | _ => True

/-- An environment whose planning inputs are never consulted, for status
callbacks outside the ARMING state. -/
def dummyEnv : PlanEnv := ⟨0, 0, [], []⟩

/-- A drone in DISARMING that is still armed and still under guided
control. -/
def c1state : DroneState :=
  ⟨States.DISARMING, true, true, true, ⟨0, 0, 0⟩, ⟨0, 0, 0⟩, ⟨0, 0, 0⟩, ⟨0, 0, 0⟩,
   ⟨0, 0, 0, (0, 1)⟩, [], []⟩

/-- A drone in WAYPOINT, horizontal distance sqrt 2 from its target
(below the 5-unit threshold), with one further waypoint queued. -/
def c4state : DroneState :=
  ⟨States.WAYPOINT, true, true, true, ⟨0, 0, -5⟩, ⟨0, 0, 0⟩, ⟨0, 0, 5⟩, ⟨0, 0, 0⟩,
   ⟨1, 1, 5, (0, 1)⟩, [⟨3, 4, 5, (1, 0)⟩], []⟩

/-- A drone in TAKEOFF whose altitude is exactly 95 percent of the
target altitude (19/4 of 5). -/
def c5state : DroneState :=
  ⟨States.TAKEOFF, true, true, true, ⟨0, 0, -19/4⟩, ⟨0, 0, 0⟩, ⟨0, 0, 19/4⟩, ⟨0, 0, 0⟩,
   ⟨0, 0, 5, (0, 1)⟩, [⟨3, 4, 5, (1, 0)⟩], []⟩

/-- A drone in TAKEOFF strictly above 95 percent of the target
altitude. -/
def c5above : DroneState :=
  ⟨States.TAKEOFF, true, true, true, ⟨0, 0, -5⟩, ⟨0, 0, 0⟩, ⟨0, 0, 5⟩, ⟨0, 0, 0⟩,
   ⟨0, 0, 5, (0, 1)⟩, [⟨3, 4, 5, (1, 0)⟩], []⟩

/-- A drone in LANDING a full unit BELOW the home altitude (global 0,
home 1), local altitude 0. -/
def c6state : DroneState :=
  ⟨States.LANDING, true, true, true, ⟨0, 0, 0⟩, ⟨0, 0, 0⟩, ⟨0, 0, 0⟩, ⟨0, 0, 1⟩,
   ⟨0, 0, 5, (0, 1)⟩, [], []⟩

/-- A drone in LANDING settled at the home altitude. -/
def c6home : DroneState :=
  ⟨States.LANDING, true, true, true, ⟨0, 0, 0⟩, ⟨0, 0, 0⟩, ⟨0, 0, 0⟩, ⟨0, 0, 0⟩,
   ⟨0, 0, 5, (0, 1)⟩, [], []⟩

/-- A drone in TAKEOFF that has reached altitude with an empty waypoint
queue. -/
def c9state : DroneState :=
  ⟨States.TAKEOFF, true, true, true, ⟨0, 0, -5⟩, ⟨0, 0, 0⟩, ⟨0, 0, 5⟩, ⟨0, 0, 0⟩,
   ⟨0, 0, 5, (0, 1)⟩, [], []⟩

/-- Obstacle map for the determinism analysis: two east-west walls whose
inflated footprints leave the single free corridor row 11 (north 0) on a
23 x 11 grid. -/
def corridorData : List Obstacle := [⟨-6, 0, 0, 0, 0, 10⟩, ⟨6, 0, 0, 0, 0, 10⟩]

/-- Planning environment drawing goal (11, 5). -/
def envGoal5 : PlanEnv := ⟨37, -122, corridorData, [(11, 5)]⟩

/-- Planning environment drawing goal (11, 9). -/
def envGoal9 : PlanEnv := ⟨37, -122, corridorData, [(11, 9)]⟩

/-- Planning environment whose first draw (8, 1) hits an occupied cell
and whose second draw is goal (11, 5). -/
def envGoal5b : PlanEnv := ⟨37, -122, corridorData, [(8, 1), (11, 5)]⟩

/-- Telemetry snapshot for the planning runs: the drone sits at the west
end of the corridor (north 0, east -5). -/
def planState : DroneState :=
  ⟨States.ARMING, true, true, false, ⟨0, -5, 0⟩, ⟨0, 0, 0⟩, ⟨-122, 37, 0⟩, ⟨-122, 37, 0⟩,
   ⟨0, 0, 0, (0, 1)⟩, [], []⟩

/-- Obstacle map with three stacked east-west walls leaving two free
corridor rows (11 and 23) on a 35 x 11 grid; the two corridors are
disconnected, so a path from one to the other does not exist. -/
def splitData : List Obstacle :=
  [⟨-12, 0, 0, 0, 0, 10⟩, ⟨0, 0, 0, 0, 0, 10⟩, ⟨12, 0, 0, 0, 0, 10⟩]

/-- Planning environment over the split map whose goal draw (23, 5) lies
in the unreachable second corridor. -/
def envSplit : PlanEnv := ⟨37, -122, splitData, [(23, 5)]⟩

/-- Telemetry snapshot in the first corridor of the split map, armed and
awaiting the status callback that starts planning. -/
def splitState : DroneState :=
  ⟨States.ARMING, true, true, true, ⟨-6, -5, 0⟩, ⟨0, 0, 0⟩, ⟨-122, 37, 10⟩, ⟨-122, 37, 0⟩,
   ⟨0, 0, 0, (0, 1)⟩, [], []⟩

theorem getElem?_zipWith {α β γ : Type} (f : α → β → γ) :
    ∀ (l1 : List α) (l2 : List β) (i : ℕ),
      (List.zipWith f l1 l2)[i]? = Option.map₂ f l1[i]? l2[i]? := by
  intro l1
  induction l1 with
  | nil => intro l2 i; simp [Option.map₂]
  | cons a t ih =>
    intro l2 i
    cases l2 with
    | nil => simp [Option.map₂]
    | cons b t2 =>
      cases i with
      | zero => simp [Option.map₂]
      | succ j => simpa using ih t2 j

theorem heading_length (p : List Cell) : (heading p).length = p.length := by
  cases p with
  | nil => rfl
  | cons a rest => simp [heading]

theorem waypoint_transition_flight_state (s : DroneState) :
    (waypoint_transition s).1.flight_state = States.WAYPOINT := by
  rw [waypoint_transition]
  cases s.waypoints <;> rfl

theorem step_fixed (env : PlanEnv) (s : DroneState) (ev : Ev)
    (h1 : s.in_mission = false) (h2 : s.flight_state = States.MANUAL) :
    step env s ev = s := by
  cases ev <;>
    simp [step, local_position_callback, velocity_callback, state_callback, h1, h2]

theorem runEvents_fixed (env : PlanEnv) (evs : List Ev) (s : DroneState)
    (h1 : s.in_mission = false) (h2 : s.flight_state = States.MANUAL) :
    runEvents env evs s = s := by
  induction evs with
  | nil => rfl
  | cons e es ih =>
    show runEvents env es (step env s e) = s
    rw [step_fixed env s e h1 h2]
    exact ih

/-- Claim C1: the spec says the DISARMING state returns to MANUAL iff the
vehicle is disarmed and not under guided control.  The code's guard
`~self.armed & ~self.guided` is Python bitwise arithmetic on bools and is
nonzero for every combination, so the status callback transitions to
MANUAL even while the vehicle is still armed and still guided: here a
fully armed, guided drone in DISARMING ends in MANUAL with the mission
closed. -/
theorem c1_disarming_always_manual :
    c1state.armed = true ∧ c1state.guided = true ∧
    disarmGuard c1state.armed c1state.guided = true ∧
    (state_callback dummyEnv c1state).1.flight_state = States.MANUAL ∧
    (state_callback dummyEnv c1state).1.in_mission = false := by
  decide

/-- Claim C4: in the WAYPOINT state the local-position callback pops and
commands the next waypoint when within 5 units of the target and the
queue is non-empty (re-entering WAYPOINT), lands when the queue is empty
and horizontal speed is below 1, and otherwise does nothing. -/
theorem c4_waypoint_callback (s : DroneState) (h : s.flight_state = States.WAYPOINT) :
    (∀ w rest, nearTarget s = true → s.waypoints = w :: rest →
      local_position_callback s =
        ({ s with flight_state := States.WAYPOINT, target_position := wpTarget w,
                  waypoints := rest,
                  cmds := s.cmds ++ [Cmd.cmdPosition (w.n : ℚ) (w.e : ℚ) (w.alt : ℚ) w.hdg] },
         none)) ∧
    (nearTarget s = true → s.waypoints = [] → slowHoriz s = true →
      local_position_callback s = (landing_transition s, none)) ∧
    (nearTarget s = true → s.waypoints = [] → slowHoriz s = false →
      local_position_callback s = (s, none)) ∧
    (nearTarget s = false → local_position_callback s = (s, none)) := by
  refine ⟨?_, ?_, ?_, ?_⟩
  · intro w rest hn hw
    simp [local_position_callback, h, hn, hw, waypoint_transition]
  · intro hn hw hs
    simp [local_position_callback, h, hn, hw, hs]
  · intro hn hw hs
    simp [local_position_callback, h, hn, hw, hs]
  · intro hn
    simp [local_position_callback, h, hn]

/-- Claim C4 witness: the concrete near-target state with a queued
waypoint pops it and issues its position command. -/
theorem c4_waypoint_callback_witness :
    local_position_callback c4state =
      ({ c4state with flight_state := States.WAYPOINT,
                      target_position := wpTarget ⟨3, 4, 5, (1, 0)⟩,
                      waypoints := [],
                      cmds := [Cmd.cmdPosition 3 4 5 (1, 0)] }, none) := by
  have h := (c4_waypoint_callback c4state rfl).1 ⟨3, 4, 5, (1, 0)⟩ [] (by decide) rfl
  simpa using h

/-- Claim C5 counterexample: at an altitude of exactly 95 percent of the
target the claim says the machine transitions to WAYPOINT, but the
code's strict comparison leaves it in TAKEOFF doing nothing. -/
theorem c5_boundary_counterexample :
    (-1 : ℚ) * c5state.local_position.x2 = (95 / 100 : ℚ) * c5state.target_position.x2 ∧
    c5state.flight_state = States.TAKEOFF ∧
    local_position_callback c5state = (c5state, none) := by
  decide

/-- Claim C5 amended: in TAKEOFF the local-position callback moves to
WAYPOINT exactly when the altitude strictly exceeds 95 percent of the
target altitude. -/
theorem c5_takeoff_strict (s : DroneState) (h : s.flight_state = States.TAKEOFF) :
    ((local_position_callback s).1.flight_state = States.WAYPOINT ↔
      (-1 : ℚ) * s.local_position.x2 > (95 / 100 : ℚ) * s.target_position.x2) := by
  have hiff : takeoffReached s = true ↔
      (-1 : ℚ) * s.local_position.x2 > (95 / 100 : ℚ) * s.target_position.x2 := by
    simp [takeoffReached]
  cases ht : takeoffReached s with
  | false =>
    rw [← hiff, ht]
    simp [local_position_callback, h, ht]
  | true =>
    rw [← hiff, ht]
    simp only [local_position_callback, h, ht, if_true]
    simpa using waypoint_transition_flight_state s

/-- Claim C5 witness: strictly above the threshold the transition to
WAYPOINT does happen. -/
theorem c5_takeoff_strict_witness :
    (local_position_callback c5above).1.flight_state = States.WAYPOINT :=
  (c5_takeoff_strict c5above rfl).mpr (by decide)

/-- Claim C6 counterexample: a full unit BELOW the home altitude is not
within 0.1 of it, yet the code's one-sided comparison still disarms, so
the claimed iff is false. -/
theorem c6_below_home_counterexample :
    |c6state.global_position.x2 - c6state.global_home.x2| > 1 / 10 ∧
    velocity_callback c6state = (disarming_transition c6state, none) ∧
    (velocity_callback c6state).1.flight_state = States.DISARMING := by
  decide

/-- Claim C6 amended: in LANDING the velocity callback disarms exactly
when global minus home altitude is below 0.1 (one-sided) and the
absolute local altitude is below 0.01. -/
theorem c6_landing_guard (s : DroneState) (h : s.flight_state = States.LANDING) :
    ((velocity_callback s).1.flight_state = States.DISARMING ↔
      (s.global_position.x2 - s.global_home.x2 < 1 / 10 ∧
        |s.local_position.x2| < 1 / 100)) := by
  by_cases hA : s.global_position.x2 - s.global_home.x2 < 1 / 10
  · by_cases hB : |s.local_position.x2| < 1 / 100
    · simp only [velocity_callback, h, decide_eq_true hA, decide_eq_true hB]
      exact iff_of_true rfl ⟨hA, hB⟩
    · simp only [velocity_callback, h, decide_eq_true hA, decide_eq_false hB]
      exact iff_of_false (by simp [h]) (fun hab => hB hab.2)
  · simp only [velocity_callback, h, decide_eq_false hA]
    exact iff_of_false (by simp [h]) (fun hab => hA hab.1)

/-- Claim C6 witness: settled at the home altitude with zero local
altitude, the callback disarms. -/
theorem c6_landing_guard_witness :
    (velocity_callback c6home).1.flight_state = States.DISARMING :=
  (c6_landing_guard c6home rfl).mpr (by decide)

/-- Claim C7: the waypoint list built by plan_path from the simplified
path has the path's length and order, and its i-th entry is the i-th
path cell plus the grid offsets, at TARGET_ALTITUDE, with the i-th
computed heading. -/
theorem c7_waypoint_structure (path : List Cell) (nOff eOff : ℤ) :
    (mkWaypoints path nOff eOff).length = path.length ∧
    ∀ i : ℕ, (mkWaypoints path nOff eOff)[i]? =
      Option.map₂ (fun (p : Cell) (hd : Heading) =>
        Waypoint.mk (p.1 + nOff) (p.2 + eOff) TARGET_ALTITUDE hd) path[i]? (heading path)[i]? := by
  constructor
  · simp [mkWaypoints, List.length_zipWith, heading_length]
  · intro i
    exact getElem?_zipWith _ path (heading path) i

/-- Claim C9: waypoint_transition pops unconditionally (empty queue means
IndexError after the state was already set to WAYPOINT), and the
TAKEOFF-to-WAYPOINT transition invokes it without checking the queue, so
reaching altitude with an empty waypoint list raises. -/
theorem c9_pop_precondition (s : DroneState) :
    (s.waypoints = [] →
      waypoint_transition s = ({ s with flight_state := States.WAYPOINT }, some Err.indexError)) ∧
    (∀ w rest, s.waypoints = w :: rest →
      waypoint_transition s =
        ({ s with flight_state := States.WAYPOINT, target_position := wpTarget w,
                  waypoints := rest,
                  cmds := s.cmds ++ [Cmd.cmdPosition (w.n : ℚ) (w.e : ℚ) (w.alt : ℚ) w.hdg] },
         none)) ∧
    (s.flight_state = States.TAKEOFF → takeoffReached s = true → s.waypoints = [] →
      local_position_callback s =
        ({ s with flight_state := States.WAYPOINT }, some Err.indexError)) := by
  refine ⟨?_, ?_, ?_⟩
  · intro hw
    simp [waypoint_transition, hw]
  · intro w rest hw
    simp [waypoint_transition, hw]
  · intro hfs hr hw
    simp [local_position_callback, hfs, hr, waypoint_transition, hw]

/-- Claim C9 witness: the concrete TAKEOFF state at altitude with an
empty queue raises IndexError from the pop. -/
theorem c9_pop_precondition_witness :
    local_position_callback c9state =
      ({ c9state with flight_state := States.WAYPOINT }, some Err.indexError) :=
  (c9_pop_precondition c9state).2.2 rfl (by decide) rfl

/-- Claim C10: manual_transition clears in_mission for good: afterwards
the state is MANUAL, and any sequence of position, velocity and status
callbacks leaves the state machine exactly where it is, so at most one
mission runs per process. -/
theorem c10_manual_absorbing (env : PlanEnv) (s : DroneState) (evs : List Ev) :
    (manual_transition s).in_mission = false ∧
    (manual_transition s).flight_state = States.MANUAL ∧
    runEvents env evs (manual_transition s) = manual_transition s :=
  ⟨rfl, rfl, runEvents_fixed env evs (manual_transition s) rfl rfl⟩

/-- Claim C2 counterexample: two plan_path runs over the same obstacle
map and the same telemetry state, differing only in the random draws of
the goal-selection loop, produce different waypoint lists, so the
planning stage is not a function of obstacle map and telemetry alone. -/
theorem c2_randomness_counterexample :
    envGoal5.data = envGoal9.data ∧ envGoal5.lat0 = envGoal9.lat0 ∧
    envGoal5.lon0 = envGoal9.lon0 ∧
    (plan_path envGoal5 planState).1.waypoints ≠ (plan_path envGoal9 planState).1.waypoints := by
  decide

/-- Claim C2 amended: the planning stage is deterministic once the
randomly selected goal is fixed: two runs with identical obstacle map,
identical telemetry, and random draw streams that select the same goal
produce identical results. -/
theorem c2_deterministic_given_goal (data : List Obstacle) (lat lon : ℚ)
    (rs1 rs2 : List (ℕ × ℕ)) (s : DroneState)
    (h : findGoal (create_grid data (TARGET_ALTITUDE : ℚ) SAFETY_DISTANCE) rs1 =
         findGoal (create_grid data (TARGET_ALTITUDE : ℚ) SAFETY_DISTANCE) rs2) :
    plan_path ⟨lat, lon, data, rs1⟩ s = plan_path ⟨lat, lon, data, rs2⟩ s := by
  simp only [plan_path]
  rw [h]

/-- Claim C2 amended witness: a run whose first draw is discarded as
occupied but whose selected goal coincides gives the identical result. -/
theorem c2_deterministic_given_goal_witness :
    findGoal (create_grid corridorData (TARGET_ALTITUDE : ℚ) SAFETY_DISTANCE) [(11, 5)] =
      findGoal (create_grid corridorData (TARGET_ALTITUDE : ℚ) SAFETY_DISTANCE)
        [(8, 1), (11, 5)] ∧
    plan_path envGoal5 planState = plan_path envGoal5b planState :=
  ⟨by decide,
   c2_deterministic_given_goal corridorData 37 (-122) [(11, 5)] [(8, 1), (11, 5)] planState
     (by decide)⟩

/-- Claim C3: on the split map the pipeline fails with NoPathFound, but
plan_path has no handler: the status callback that invoked it surfaces
the error with the state already moved to PLANNING (not MANUAL), the
mission still open and no waypoints; the NEXT status callback then
issues a takeoff command, exactly what the spec's fail-safe clause
forbids. -/
theorem c3_error_leaves_planning :
    (state_callback envSplit splitState).2 = some Err.noPathFound ∧
    (state_callback envSplit splitState).1.flight_state = States.PLANNING ∧
    (state_callback envSplit splitState).1.in_mission = true ∧
    (state_callback envSplit splitState).1.waypoints = [] ∧
    (state_callback envSplit (state_callback envSplit splitState).1).1.flight_state =
      States.TAKEOFF ∧
    Cmd.takeoff 5 ∈ (state_callback envSplit (state_callback envSplit splitState).1).1.cmds := by
  decide

theorem collinearTest_iff (a b c : Cell) :
    collinearTest a b c = true ↔ det3 a b c = 0 := by
  rw [collinearTest, decide_eq_true_iff]
  constructor
  · intro h
    by_contra hd
    have h1 : (1 : ℤ) ≤ |det3 a b c| := Int.one_le_abs hd
    have h2 : (1 : ℚ) ≤ |(det3 a b c : ℚ)| := by exact_mod_cast (by push_cast; exact_mod_cast h1 : (1 : ℚ) ≤ |(det3 a b c : ℤ)|)
    linarith
  · intro h
    rw [h]
    norm_num

theorem det3_rot_zero (a b c : Cell) (h : det3 a b c = 0) : det3 b c a = 0 := by
  obtain ⟨a1, a2⟩ := a
  obtain ⟨b1, b2⟩ := b
  obtain ⟨c1, c2⟩ := c
  simp only [det3] at h ⊢
  linear_combination h

theorem det3_swap_zero (a b c : Cell) (h : det3 a b c = 0) : det3 a c b = 0 := by
  obtain ⟨a1, a2⟩ := a
  obtain ⟨b1, b2⟩ := b
  obtain ⟨c1, c2⟩ := c
  simp only [det3] at h ⊢
  linear_combination -h

theorem det3_deg₁ (a b : Cell) : det3 a b b = 0 := by
  obtain ⟨a1, a2⟩ := a
  obtain ⟨b1, b2⟩ := b
  simp only [det3]
  ring

theorem det3_deg₂ (a b : Cell) : det3 a b a = 0 := by
  obtain ⟨a1, a2⟩ := a
  obtain ⟨b1, b2⟩ := b
  simp only [det3]
  ring

theorem colLine (a b x y w : Cell) (hab : a ≠ b) (hx : det3 a b x = 0)
    (hy : det3 a b y = 0) (hw : det3 a b w = 0) : det3 x y w = 0 := by
  obtain ⟨a1, a2⟩ := a
  obtain ⟨b1, b2⟩ := b
  obtain ⟨x1, x2⟩ := x
  obtain ⟨y1, y2⟩ := y
  obtain ⟨w1, w2⟩ := w
  have hd : b1 - a1 ≠ 0 ∨ b2 - a2 ≠ 0 := by
    by_contra hcon
    push_neg at hcon
    exact hab (by
      have e1 : a1 = b1 := by linarith [hcon.1, sub_eq_zero.mp hcon.1]
      have e2 : a2 = b2 := by linarith [hcon.2, sub_eq_zero.mp hcon.2]
      rw [e1, e2])
  simp only [det3] at hx hy hw ⊢
  rcases hd with hd1 | hd2
  · have key : (b1 - a1) * (x1 * (y2 - w2) + y1 * (w2 - x2) + w1 * (x2 - y2)) = 0 := by
      linear_combination (y1 - x1) * hw + (x1 - w1) * hy + (w1 - y1) * hx
    exact (mul_eq_zero.mp key).resolve_left hd1
  · have key : (b2 - a2) * (x1 * (y2 - w2) + y1 * (w2 - x2) + w1 * (x2 - y2)) = 0 := by
      linear_combination (y2 - x2) * hw + (x2 - w2) * hy + (w2 - y2) * hx
    exact (mul_eq_zero.mp key).resolve_left hd2

theorem go_cons_ne_nil : ∀ (m : List Cell) (p b : Cell), go p (b :: m) ≠ [] := by
  intro m
  induction m with
  | nil => intro p b; simp [go]
  | cons c r ih =>
    intro p b
    simp only [go]
    split
    · exact ih b c
    · simp

theorem go_subset : ∀ (m : List Cell) (p x : Cell), x ∈ go p m → x ∈ m := by
  intro m
  induction m with
  | nil => intro p x hx; simp [go] at hx
  | cons b t ih =>
    cases t with
    | nil => intro p x hx; simpa [go] using hx
    | cons c r =>
      intro p x hx
      simp only [go] at hx
      rcases ite_eq_or_eq (collinearTest p b c = true) (go b (c :: r)) (b :: go b (c :: r)) with he | he
      all_goals rw [he] at hx
      · exact List.mem_cons_of_mem b (ih b x hx)
      · rcases List.mem_cons.mp hx with rfl | hx2
        · exact List.mem_cons_self x (c :: r)
        · exact List.mem_cons_of_mem b (ih b x hx2)

theorem go_head : ∀ (r : List Cell) (b c z : Cell) (t : List Cell),
    (c :: r).Nodup → go b (c :: r) = z :: t → z = c ∨ det3 b c z = 0 := by
  intro r
  induction r with
  | nil =>
    intro b c z t _ h
    simp only [go] at h
    exact Or.inl (by injection h with h1 _; exact h1.symm)
  | cons c2 r2 ih =>
    intro b c z t hnd h
    simp only [go] at h
    by_cases hcol : collinearTest b c c2 = true
    · rw [if_pos hcol] at h
      have hbc2 : det3 b c c2 = 0 := (collinearTest_iff b c c2).mp hcol
      have hcc2 : c ≠ c2 := by
        intro he
        exact (List.nodup_cons.mp hnd).1 (he ▸ List.mem_cons_self c2 r2)
      rcases ih c c2 z t (List.nodup_cons.mp hnd).2 h with rfl | hzc
      · exact Or.inr hbc2
      · exact Or.inr (colLine c c2 b c z hcc2
          (det3_rot_zero b c c2 hbc2) (det3_deg₂ c c2) hzc)
    · rw [if_neg hcol] at h
      exact Or.inl (by injection h with h1 _; exact h1.symm)

theorem noColAt_go : ∀ (m : List Cell) (p : Cell), (p :: m).Nodup → noColAt p (go p m) := by
  intro m
  induction m with
  | nil => intro p _; simp [go, noColAt]
  | cons b t ih =>
    cases t with
    | nil => intro p _; simp [go, noColAt]
    | cons c r =>
      intro p hnd
      have hnd_b : (b :: c :: r).Nodup := (List.nodup_cons.mp hnd).2
      have hp_notin : p ∉ b :: c :: r := (List.nodup_cons.mp hnd).1
      have hb_notin : b ∉ c :: r := (List.nodup_cons.mp hnd_b).1
      have hX : noColAt b (go b (c :: r)) := ih b hnd_b
      obtain ⟨z, t', hzt⟩ : ∃ z t', go b (c :: r) = z :: t' := by
        cases hgo : go b (c :: r) with
        | nil => exact absurd hgo (go_cons_ne_nil r b c)
        | cons z t' => exact ⟨z, t', rfl⟩
      have hz_mem : z ∈ c :: r :=
        go_subset (c :: r) b z (hzt ▸ List.mem_cons_self z t')
      have hz := go_head r b c z t' (List.nodup_cons.mp hnd_b).2 hzt
      have hbc_ne : b ≠ c := fun he =>
        hb_notin (by rw [he]; exact List.mem_cons_self c r)
      have hbz_ne : b ≠ z := fun he => hb_notin (by rw [he]; exact hz_mem)
      have hpc_ne : p ≠ c := fun he =>
        hp_notin (by rw [he]; exact List.mem_cons_of_mem b (List.mem_cons_self c r))
      have hpz_ne : p ≠ z := fun he =>
        hp_notin (by rw [he]; exact List.mem_cons_of_mem b hz_mem)
      simp only [go]
      by_cases hcol : collinearTest p b c = true
      · rw [if_pos hcol]
        rw [hzt] at hX ⊢
        have hpbc : det3 p b c = 0 := (collinearTest_iff p b c).mp hcol
        cases t' with
        | nil => simp [noColAt]
        | cons z2 t2 =>
          refine ⟨?_, hX.2⟩
          intro hpzz2
          apply hX.1
          rcases hz with rfl | hbcz
          · exact colLine p z b z z2 hpc_ne
              (det3_swap_zero p b z hpbc) (det3_deg₁ p z) hpzz2
          · have h1 : det3 p z b = 0 := colLine b c p z b hbc_ne
              (det3_rot_zero p b c hpbc) hbcz (det3_deg₂ b c)
            have h2 : det3 b z2 z = 0 := colLine p z b z2 z hpz_ne
              h1 hpzz2 (det3_deg₁ p z)
            exact det3_swap_zero b z2 z h2
      · rw [if_neg hcol]
        rw [hzt] at hX ⊢
        refine ⟨?_, hX⟩
        intro hpbz
        apply hcol
        apply (collinearTest_iff p b c).mpr
        rcases hz with rfl | hbcz
        · exact hpbz
        · exact colLine b z p b c hbz_ne
            (det3_rot_zero p b z hpbz) (det3_deg₂ b z)
            (det3_swap_zero b c z hbcz)

theorem go_of_noColAt : ∀ (m : List Cell) (p : Cell), noColAt p m → go p m = m := by
  intro m
  induction m with
  | nil => intro p _; rfl
  | cons b t ih =>
    cases t with
    | nil => intro p _; rfl
    | cons c r =>
      intro p h
      have hne : ¬(collinearTest p b c = true) := fun hc => h.1 ((collinearTest_iff p b c).mp hc)
      simp only [go]
      rw [if_neg hne, ih b h.2]

/-- Claim C8 counterexample: on the Path (0,0) (1,0) (1,1) (1,0) --
8-connected but revisiting the cell (1,0) -- one simplifier pass leaves
the degenerate collinear triple (0,0) (1,0) (1,0), which a second pass
removes, so simplify(simplify P) differs from simplify P. -/
theorem c8_revisit_counterexample :
    collinearity (collinearity [((0 : ℤ), (0 : ℤ)), (1, 0), (1, 1), (1, 0)]) ≠
      collinearity [((0 : ℤ), (0 : ℤ)), (1, 0), (1, 1), (1, 0)] := by
  decide

/-- Claim C8 amended: the path simplifier is idempotent on every path
whose cells are pairwise distinct (in particular on every path the A*
search can produce, since its closed set never revisits a cell). -/
theorem c8_idempotent_nodup (P : List Cell) (h : P.Nodup) :
    collinearity (collinearity P) = collinearity P := by
  cases P with
  | nil => rfl
  | cons a l =>
    show collinearity (a :: go a l) = a :: go a l
    simp only [collinearity]
    rw [go_of_noColAt (go a l) a (noColAt_go l a h)]

/-- Claim C8 amended witness: a duplicate-free right-angle path
simplifies idempotently. -/
theorem c8_idempotent_nodup_witness :
    ([((0 : ℤ), (0 : ℤ)), (1, 0), (2, 0), (2, 1)] : List Cell).Nodup ∧
    collinearity (collinearity [((0 : ℤ), (0 : ℤ)), (1, 0), (2, 0), (2, 1)]) =
      collinearity [((0 : ℤ), (0 : ℤ)), (1, 0), (2, 0), (2, 1)] :=
  ⟨by decide, c8_idempotent_nodup [((0 : ℤ), (0 : ℤ)), (1, 0), (2, 0), (2, 1)] (by decide)⟩

end MP
